import Mathlib

/-!
Shallow embedding of src-d/parquetry (src/parquet2sql/parquet2sql.py).

The tool loads a parquet file into a pandas DataFrame and synchronizes an SQL
table from it: `ParquetManager.process_parquet` calls `_incremental_delete`
and then `_incremental_update`.

Embedding choices, each tied to a line of the source:
* A pandas row is an association list from column name to scalar value
  (`Row`); a DataFrame carries its column list and its rows.
* `_incremental_delete` (lines 68-92): the marker check `if self.UPDATE_COLUMN
  not in df.columns: raise KeyError` is the `UPDATE_COLUMN ∈ df.columns` test;
  the mask `numpy.logical_not(df[op])` / `df[op]` is modelled only on strictly
  boolean marker values (`markerFalse` / `markerTrue`), matching the numpy
  semantics for bools; `filter_data` builds `and_(*[table.c[col] == row[col]
  for col in table.columns.keys()])`, where `row[col]` raises KeyError when
  the column is absent from the row (`eqCond`); `delete_df.apply` maps
  `filter_data` over the delete rows, aborting at the first raised KeyError
  (`mapExcept`); `or_(*conds)` is `Pred.orP`; `conn.execute(delete)` is
  executed unconditionally, so `incrementalDelete` always yields one delete
  statement when no exception was raised.
* `_incremental_update` (lines 94-107): same marker check, then
  `df.loc[df[op]].drop(op, axis=1)` (`addRows`, `dropColumn`) and
  `to_sql(..., if_exists="append")` (`Stmt.insertRows`).
* Python exceptions become the `Err` type: `Err.missingMarker` is the
  KeyError of the explicit marker checks (the specification calls it
  SchemaError), `Err.colKeyError` is the pandas KeyError from `row[col]`
  (the specification calls it ColumnMismatchError), `Err.dbError` stands for
  a failure raised by the external database driver.
* `process_parquet` returns None and only logs "File was %s saved to table
  %s at %s" (parquet, table, db); `LogRecord` is that observable result.
-/

namespace Parquetry

/-- Scalar values carried by DataFrame cells and table cells. -/
inductive Value where
  | intV : Int → Value
  | strV : String → Value
  | boolV : Bool → Value
  | nullV : Value
deriving DecidableEq, Repr

/-- A row: mapping from column name to value, in column order. -/
abbrev Row := List (String × Value)

/-- A pandas DataFrame: named columns plus an ordered list of rows. -/
structure DataFrame where
  columns : List String
  rows : List Row
deriving DecidableEq, Repr

/-- The live SQL table: its name, introspected column list, and rows. -/
structure Table where
  name : String
  columns : List String
  rows : List Row
deriving DecidableEq, Repr

/-- `ParquetManager.UPDATE_COLUMN = "op"`. -/
def UPDATE_COLUMN : String := "op"

/-- Errors raised by the synchronizer.  `missingMarker` models the KeyError
raised by the explicit marker-column checks; `colKeyError` models the pandas
KeyError raised by `row[col]` in `filter_data`; `dbError` models a failure
signalled by the external database engine. -/
inductive Err where
  | missingMarker : String → Err
  | colKeyError : String → Err
  | dbError : Err
deriving DecidableEq, Repr

/-- SQLAlchemy predicate expressions: `table.c[col] == value`, `and_(*l)`,
`or_(*l)`. -/
inductive Pred where
  | eqP : String → Value → Pred
  | andP : List Pred → Pred
  | orP : List Pred → Pred

/-- Database statements issued by the synchronizer: the batched DELETE of
`_incremental_delete` and the bulk append of `to_sql`. -/
inductive Stmt where
  | deleteStmt : String → Pred → Stmt
  | insertRows : String → List Row → Stmt

/-- Truthiness of the marker cell as used by the add mask `df.loc[df[op]]`,
defined on strictly boolean values (numpy semantics on other values is
outside this embedding). -/
def markerTrue (r : Row) : Bool :=
  match r.lookup UPDATE_COLUMN with
  | some (Value.boolV b) => b
  | _ => false

/-- Truthiness of `numpy.logical_not(df[op])` for a row, defined on strictly
boolean values. -/
def markerFalse (r : Row) : Bool :=
  match r.lookup UPDATE_COLUMN with
  | some (Value.boolV b) => !b
  | _ => false

/-- Whether the marker cell of a row is strictly boolean. -/
def isBoolMarker (r : Row) : Bool :=
  match r.lookup UPDATE_COLUMN with
  | some (Value.boolV _) => true
  | _ => false

/-- Whether every row of the DataFrame has a strictly boolean marker, the
invariant the specification imposes on the marker column. -/
def markersStrictlyBoolean (df : DataFrame) : Bool :=
  df.rows.all isBoolMarker

/-- `delete_df = df.loc[numpy.logical_not(df[self.UPDATE_COLUMN])]`
(parquet2sql.py line 86). -/
def deleteRows (df : DataFrame) : List Row :=
  df.rows.filter markerFalse

/-- `df.loc[df[self.UPDATE_COLUMN]]` (parquet2sql.py line 106). -/
def addRows (df : DataFrame) : List Row :=
  df.rows.filter markerTrue

/-- One conjunct `table.c[col] == row[col]` of `filter_data`; `row[col]`
raises KeyError when `col` is not a label of the row. -/
def eqCond (row : Row) (col : String) : Except Err Pred :=
  match row.lookup col with
  | some v => Except.ok (Pred.eqP col v)
  | none => Except.error (Err.colKeyError col)

/-- Effectful map over a list, stopping at the first raised exception; models
both the comprehension in `filter_data` and `delete_df.apply(...)`. -/
def mapExcept (f : α → Except Err β) : List α → Except Err (List β)
  | [] => Except.ok []
  | a :: l =>
    match f a with
    | Except.error e => Except.error e
    | Except.ok b =>
      match mapExcept f l with
      | Except.error e => Except.error e
      | Except.ok bs => Except.ok (b :: bs)

/-- `filter_data(row, table)` (parquet2sql.py lines 77-79): conjunction of an
equality condition for every column of the introspected table. -/
def filterData (row : Row) (table : Table) : Except Err Pred :=
  match mapExcept (eqCond row) table.columns with
  | Except.error e => Except.error e
  | Except.ok conds => Except.ok (Pred.andP conds)

/-- `_incremental_delete` (parquet2sql.py lines 68-92): marker-column check,
per-delete-row predicates combined by `or_`, and the unconditional
`conn.execute(delete)`; yields the single delete statement it executes, or
the exception it raises. -/
def incrementalDelete (df : DataFrame) (table : Table) : Except Err Stmt :=
  if UPDATE_COLUMN ∈ df.columns then
    match mapExcept (fun r => filterData r table) (deleteRows df) with
    | Except.error e => Except.error e
    | Except.ok conds => Except.ok (Stmt.deleteStmt table.name (Pred.orP conds))
  else Except.error (Err.missingMarker UPDATE_COLUMN)

/-- Removal of the marker column: `drop(self.UPDATE_COLUMN, axis=1)`. -/
def dropColumn (c : String) (r : Row) : Row :=
  r.filter (fun p => !(p.1 == c))

/-- `_incremental_update` (parquet2sql.py lines 94-107): marker-column check,
then the bulk append of the marker-true rows with the marker column dropped. -/
def incrementalUpdate (df : DataFrame) (table : Table) : Except Err Stmt :=
  if UPDATE_COLUMN ∈ df.columns then
    Except.ok (Stmt.insertRows table.name ((addRows df).map (dropColumn UPDATE_COLUMN)))
  else Except.error (Err.missingMarker UPDATE_COLUMN)

/-- The delete phase as a run: the statements it issued and the exception it
raised, if any. -/
def incrementalDeleteRun (df : DataFrame) (table : Table) : List Stmt × Option Err :=
  match incrementalDelete df table with
  | Except.ok s => ([s], none)
  | Except.error e => ([], some e)

/-- The add phase as a run: the statements it issued and the exception it
raised, if any. -/
def incrementalUpdateRun (df : DataFrame) (table : Table) : List Stmt × Option Err :=
  match incrementalUpdate df table with
  | Except.ok s => ([s], none)
  | Except.error e => ([], some e)

/-- `process_parquet` (parquet2sql.py lines 45-60) as a run: the delete phase,
then the add phase, an exception aborting the rest; yields the list of issued
statements in order and the exception, if any. -/
def processParquetRun (df : DataFrame) (table : Table) : List Stmt × Option Err :=
  match incrementalDelete df table with
  | Except.error e => ([], some e)
  | Except.ok s1 =>
    match incrementalUpdate df table with
    | Except.error e => ([s1], some e)
    | Except.ok s2 => ([s1, s2], none)

/-- The only observable result of a successful `process_parquet` call: the
log call `self.log.info("File was %s saved to table %s at %s", parquet,
table, self.db)`; the method itself returns None. -/
structure LogRecord where
  parquet : String
  table : String
  db : String
deriving DecidableEq, Repr

/-- `process_parquet` with its observable result: on success, the log record;
on failure, the exception. -/
def processParquet (df : DataFrame) (table : Table) (parquetName dbName : String) :
    Except Err LogRecord :=
  match processParquetRun df table with
  | (_, some e) => Except.error e
  | (_, none) => Except.ok ⟨parquetName, table.name, dbName⟩

mutual

/-- Whether a table row satisfies a predicate (the SQL semantics of the
generated WHERE clause, with the empty disjunction evaluating to false). -/
def rowMatches (r : Row) : Pred → Bool
  | Pred.eqP c v => r.lookup c == some v
  | Pred.andP ps => rowMatchesAll r ps
  | Pred.orP ps => rowMatchesAny r ps

/-- Conjunction of `rowMatches` over a list of predicates. -/
def rowMatchesAll (r : Row) : List Pred → Bool
  | [] => true
  | p :: ps => rowMatches r p && rowMatchesAll r ps

/-- Disjunction of `rowMatches` over a list of predicates. -/
def rowMatchesAny (r : Row) : List Pred → Bool
  | [] => false
  | p :: ps => rowMatches r p || rowMatchesAny r ps

end

/-- Effect of one issued statement on the live table: the batched DELETE
removes every matching row; the bulk append adds the rows at the end. -/
def execStmt (tbl : Table) : Stmt → Table
  | Stmt.deleteStmt _ p => { tbl with rows := tbl.rows.filter (fun r => !(rowMatches r p)) }
  | Stmt.insertRows _ rs => { tbl with rows := tbl.rows ++ rs }

/-- `process_parquet` run against a live table state.  Mirrors the commit
structure of the code: `_incremental_delete` executes its DELETE inside its
own `engine.connect()` block and that work is committed when the block ends;
`to_sql` then writes on a separate connection; no transaction spans the two
phases.  `addFails` injects a failure of the external database engine during
the add phase (`Err.dbError`).  Returns the final table state and the
exception, if any. -/
def processParquetExec (df : DataFrame) (tbl : Table) (addFails : Bool) :
    Table × Option Err :=
  match incrementalDelete df tbl with
  | Except.error e => (tbl, some e)
  | Except.ok s1 =>
    let tbl1 := execStmt tbl s1
    if addFails then (tbl1, some Err.dbError)
    else
      match incrementalUpdate df tbl with
      | Except.error e => (tbl1, some e)
      | Except.ok s2 => (execStmt tbl1 s2, none)

/-! Concrete data used to exercise the definitions. -/

/-- A row marked for addition: `(id = 1, op = True)`. -/
def rowAdd1 : Row := [("id", Value.intV 1), ("op", Value.boolV true)]

/-- A row marked for deletion: `(id = 2, op = False)`. -/
def rowDel2 : Row := [("id", Value.intV 2), ("op", Value.boolV false)]

/-- A snapshot with one add-marked and one delete-marked row. -/
def dfMixed : DataFrame := ⟨["id", "op"], [rowAdd1, rowDel2]⟩

/-- A snapshot whose only row is add-marked: its delete-set is empty. -/
def dfAddOnly : DataFrame := ⟨["id", "op"], [rowAdd1]⟩

/-- A snapshot with no `op` column. -/
def dfNoOp : DataFrame := ⟨["id"], [[("id", Value.intV 1)]]⟩

/-- A snapshot with an extra non-marker column `extra`. -/
def dfExtra : DataFrame :=
  ⟨["id", "extra", "op"],
   [[("id", Value.intV 1), ("extra", Value.intV 2), ("op", Value.boolV false)]]⟩

/-- A live table `t(id)` holding the single row `(id = 2)`. -/
def tblId : Table := ⟨"t", ["id"], [[("id", Value.intV 2)]]⟩

/-- A live table `t2(id, name)` with no rows. -/
def tblIdName : Table := ⟨"t2", ["id", "name"], []⟩

/-! Helper lemmas about the embedded operations. -/

/-- If some element of the list raises, the effectful map raises. -/
theorem mapExcept_error_of_mem {f : α → Except Err β} {l : List α} {a : α} {e : Err}
    (ha : a ∈ l) (hf : f a = Except.error e) :
    ∃ e2, mapExcept f l = Except.error e2 := by
  induction l with
  | nil => cases ha
  | cons x xs ih =>
    rcases List.mem_cons.mp ha with h | h
    · subst h
      exact ⟨e, by simp [mapExcept, hf]⟩
    · cases hx : f x with
      | error e3 => exact ⟨e3, by simp [mapExcept, hx]⟩
      | ok b =>
        obtain ⟨e2, h2⟩ := ih h
        exact ⟨e2, by simp [mapExcept, hx, h2]⟩

/-- An error of the effectful map is the error of some element. -/
theorem mapExcept_error_inv {f : α → Except Err β} {l : List α} {e : Err}
    (h : mapExcept f l = Except.error e) : ∃ a ∈ l, f a = Except.error e := by
  induction l with
  | nil => simp [mapExcept] at h
  | cons x xs ih =>
    cases hx : f x with
    | error e2 =>
      rw [show mapExcept f (x :: xs) = Except.error e2 by simp [mapExcept, hx]] at h
      obtain rfl : e2 = e := by injection h
      exact ⟨x, List.mem_cons_self x xs, hx⟩
    | ok b =>
      cases hrec : mapExcept f xs with
      | error e2 =>
        rw [show mapExcept f (x :: xs) = Except.error e2 by simp [mapExcept, hx, hrec]] at h
        obtain rfl : e2 = e := by injection h
        obtain ⟨a, ha, hfa⟩ := ih hrec
        exact ⟨a, List.mem_cons_of_mem x ha, hfa⟩
      | ok bs =>
        rw [show mapExcept f (x :: xs) = Except.ok (b :: bs) by simp [mapExcept, hx, hrec]] at h
        cases h

/-- The only error `eqCond` raises is the KeyError naming the column. -/
theorem eqCond_error_inv {row : Row} {col : String} {e : Err}
    (h : eqCond row col = Except.error e) : e = Err.colKeyError col := by
  unfold eqCond at h
  cases hl : row.lookup col with
  | none =>
    rw [hl] at h
    injection h with h2
    exact h2.symm
  | some v => rw [hl] at h; cases h

/-- The only errors `filter_data` raises are column KeyErrors. -/
theorem filterData_error_inv {row : Row} {tbl : Table} {e : Err}
    (h : filterData row tbl = Except.error e) : ∃ c, e = Err.colKeyError c := by
  unfold filterData at h
  cases hm : mapExcept (eqCond row) tbl.columns with
  | error e2 =>
    rw [hm] at h
    obtain rfl : e2 = e := by injection h
    obtain ⟨c, _, hc⟩ := mapExcept_error_inv hm
    exact ⟨c, (eqCond_error_inv hc).symm ▸ rfl⟩
  | ok conds => rw [hm] at h; cases h

/-- On strictly boolean markers the two masks split the rows exactly. -/
theorem filter_marker_length (l : List Row) (h : l.all isBoolMarker = true) :
    (l.filter markerFalse).length + (l.filter markerTrue).length = l.length := by
  induction l with
  | nil => simp
  | cons r t ih =>
    rw [List.all_cons, Bool.and_eq_true] at h
    obtain ⟨hr, ht⟩ := h
    have iht := ih ht
    cases hm : r.lookup UPDATE_COLUMN with
    | none => simp [isBoolMarker, hm] at hr
    | some v =>
      cases v with
      | boolV b =>
        have hF : markerFalse r = !b := by simp [markerFalse, hm]
        have hT : markerTrue r = b := by simp [markerTrue, hm]
        cases b with
        | false =>
          simp [List.filter_cons, hF, hT]
          omega
        | true =>
          simp [List.filter_cons, hF, hT]
          omega
      | intV n => simp [isBoolMarker, hm] at hr
      | strV s => simp [isBoolMarker, hm] at hr
      | nullV => simp [isBoolMarker, hm] at hr

/-- Dropping a column removes it from every lookup. -/
theorem lookup_dropColumn_self (c : String) (r : Row) :
    (dropColumn c r).lookup c = none := by
  induction r with
  | nil => rfl
  | cons p t ih =>
    rcases p with ⟨k, v⟩
    by_cases h : k = c
    · subst h
      rw [show dropColumn k ((k, v) :: t) = dropColumn k t by
        simp [dropColumn, List.filter_cons]]
      exact ih
    · rw [show dropColumn c ((k, v) :: t) = (k, v) :: dropColumn c t by
        simp [dropColumn, List.filter_cons, h]]
      rw [List.lookup_cons]
      rw [show (c == k) = false from beq_eq_false_iff_ne.mpr (Ne.symm h)]
      exact ih

/-- Dropping a column leaves every other lookup unchanged. -/
theorem lookup_dropColumn_ne (c c2 : String) (hne : c2 ≠ c) (r : Row) :
    (dropColumn c r).lookup c2 = r.lookup c2 := by
  induction r with
  | nil => rfl
  | cons p t ih =>
    rcases p with ⟨k, v⟩
    by_cases h : k = c
    · subst h
      rw [show dropColumn k ((k, v) :: t) = dropColumn k t by
        simp [dropColumn, List.filter_cons]]
      rw [ih, List.lookup_cons]
      rw [show (c2 == k) = false from beq_eq_false_iff_ne.mpr hne]
    · rw [show dropColumn c ((k, v) :: t) = (k, v) :: dropColumn c t by
        simp [dropColumn, List.filter_cons, h]]
      rw [List.lookup_cons, List.lookup_cons]
      cases hck : (c2 == k) with
      | true => rfl
      | false => exact ih

/-! Claim theorems. -/

/-- C1, counterexample: a snapshot whose delete-set is empty (its single row
is add-marked) still makes the delete phase issue a delete statement — the
code calls `conn.execute(delete)` unconditionally — refuting the claim that
an empty delete-set makes the phase a no-op issuing no statement. -/
theorem c1_counterexample :
    deleteRows dfAddOnly = [] ∧
    (incrementalDeleteRun dfAddOnly tblId).1 = [Stmt.deleteStmt "t" (Pred.orP [])] :=
  ⟨rfl, rfl⟩

/-- C1, amended: when the marker column is present and the delete-set is
empty, the delete phase does not error but still issues exactly one delete
statement, whose predicate is the empty disjunction `or_()`. -/
theorem c1_empty_deleteset_issues_one_statement (df : DataFrame) (tbl : Table)
    (hop : UPDATE_COLUMN ∈ df.columns) (hdel : deleteRows df = []) :
    incrementalDeleteRun df tbl = ([Stmt.deleteStmt tbl.name (Pred.orP [])], none) := by
  simp [incrementalDeleteRun, incrementalDelete, hop, hdel, mapExcept]

/-- C1, witness: the amended statement holds at the concrete snapshot whose
only row is add-marked, against table `t(id)`. -/
theorem c1_witness :
    (UPDATE_COLUMN ∈ dfAddOnly.columns ∧ deleteRows dfAddOnly = []) ∧
    incrementalDeleteRun dfAddOnly tblId = ([Stmt.deleteStmt tblId.name (Pred.orP [])], none) :=
  ⟨⟨by decide, rfl⟩, c1_empty_deleteset_issues_one_statement dfAddOnly tblId (by decide) rfl⟩

/-- C2: when the snapshot has no `op` column, `process_parquet` raises the
missing-marker KeyError (the SchemaError of the specification), issues zero
database statements, and leaves the live table unchanged on every execution
path. -/
theorem c2_missing_marker_fails_without_statements (df : DataFrame) (tbl : Table)
    (h : UPDATE_COLUMN ∉ df.columns) :
    processParquetRun df tbl = ([], some (Err.missingMarker UPDATE_COLUMN)) ∧
    ∀ addFails, processParquetExec df tbl addFails =
      (tbl, some (Err.missingMarker UPDATE_COLUMN)) := by
  have hd : incrementalDelete df tbl = Except.error (Err.missingMarker UPDATE_COLUMN) := by
    simp [incrementalDelete, h]
  exact ⟨by simp [processParquetRun, hd], fun aF => by simp [processParquetExec, hd]⟩

/-- C2, witness: the concrete snapshot lacking `op`, against table `t(id)`,
raises the missing-marker error with an empty statement trace and an
unchanged table. -/
theorem c2_witness :
    UPDATE_COLUMN ∉ dfNoOp.columns ∧
    (processParquetRun dfNoOp tblId = ([], some (Err.missingMarker UPDATE_COLUMN)) ∧
      ∀ addFails, processParquetExec dfNoOp tblId addFails =
        (tblId, some (Err.missingMarker UPDATE_COLUMN))) :=
  ⟨by decide, c2_missing_marker_fails_without_statements dfNoOp tblId (by decide)⟩

/-- C6: in every run of `process_parquet` the issued-statement trace is
empty, a single delete statement, or a delete statement followed by the
insert — an insert is only ever issued after the delete phase completed
successfully, never before. -/
theorem c6_delete_completes_before_add (df : DataFrame) (tbl : Table) :
    (processParquetRun df tbl).1 = [] ∨
    (∃ p, (processParquetRun df tbl).1 = [Stmt.deleteStmt tbl.name p]) ∨
    (∃ p rs, (processParquetRun df tbl).1 =
        [Stmt.deleteStmt tbl.name p, Stmt.insertRows tbl.name rs] ∧
      incrementalDelete df tbl = Except.ok (Stmt.deleteStmt tbl.name p)) := by
  by_cases hop : UPDATE_COLUMN ∈ df.columns
  · cases hm : mapExcept (fun r => filterData r tbl) (deleteRows df) with
    | error e =>
      left
      simp [processParquetRun, incrementalDelete, hop, hm]
    | ok conds =>
      have hd : incrementalDelete df tbl =
          Except.ok (Stmt.deleteStmt tbl.name (Pred.orP conds)) := by
        simp [incrementalDelete, hop, hm]
      have hu : incrementalUpdate df tbl =
          Except.ok (Stmt.insertRows tbl.name ((addRows df).map (dropColumn UPDATE_COLUMN))) := by
        simp [incrementalUpdate, hop]
      right; right
      exact ⟨Pred.orP conds, (addRows df).map (dropColumn UPDATE_COLUMN),
        by simp [processParquetRun, hd, hu], hd⟩
  · left
    simp [processParquetRun, incrementalDelete, hop]

/-- C10: the add phase re-checks the marker column on its own: called alone
on a DataFrame lacking `op`, `_incremental_update` raises the KeyError and
issues no insert statement, so no row is inserted. -/
theorem c10_update_rechecks_marker (df : DataFrame) (tbl : Table)
    (h : UPDATE_COLUMN ∉ df.columns) :
    incrementalUpdateRun df tbl = ([], some (Err.missingMarker UPDATE_COLUMN)) := by
  simp [incrementalUpdateRun, incrementalUpdate, h]

/-- C10, witness: the add phase alone, on the concrete snapshot lacking
`op`, raises the missing-marker error with an empty statement trace. -/
theorem c10_witness :
    UPDATE_COLUMN ∉ dfNoOp.columns ∧
    incrementalUpdateRun dfNoOp tblIdName = ([], some (Err.missingMarker UPDATE_COLUMN)) :=
  ⟨by decide, c10_update_rechecks_marker dfNoOp tblIdName (by decide)⟩

/-- C3: on a snapshot whose marker column holds strictly boolean values, the
partition is total and disjoint — the delete-set and add-set lengths sum to
the row count — and each partition is a sublist of the original rows, so the
original row order is preserved within each partition. -/
theorem c3_partition_total_disjoint (df : DataFrame)
    (h : markersStrictlyBoolean df = true) :
    (deleteRows df).length + (addRows df).length = df.rows.length ∧
    (deleteRows df).Sublist df.rows ∧ (addRows df).Sublist df.rows :=
  ⟨filter_marker_length df.rows h, List.filter_sublist _, List.filter_sublist _⟩

/-- C3, witness: the partition property at the concrete two-row snapshot
with one add-marked and one delete-marked row. -/
theorem c3_witness :
    markersStrictlyBoolean dfMixed = true ∧
    ((deleteRows dfMixed).length + (addRows dfMixed).length = dfMixed.rows.length ∧
      (deleteRows dfMixed).Sublist dfMixed.rows ∧ (addRows dfMixed).Sublist dfMixed.rows) :=
  ⟨by decide, c3_partition_total_disjoint dfMixed (by decide)⟩

/-- C4, counterexample: a snapshot whose non-marker columns (`id`, `extra`)
differ from the live table columns (`id`) and which carries a delete-marked
row does not make predicate construction fail — the code only looks up the
table columns in each row, so extra snapshot columns pass silently —
refuting the claim that any exact-match violation raises an error. -/
theorem c4_counterexample :
    dfExtra.columns.filter (fun c => !(c == UPDATE_COLUMN)) ≠ tblId.columns ∧
    deleteRows dfExtra ≠ [] ∧
    (incrementalDeleteRun dfExtra tblId).2 = none :=
  ⟨by decide, by decide, rfl⟩

/-- C4, amended: when the marker column is present and some delete-marked
row lacks a column of the live table — in particular whenever the snapshot
has fewer columns than the table — predicate construction raises a column
KeyError (the ColumnMismatchError of the specification) and the delete
phase issues no statement; a snapshot with extra columns does not fail. -/
theorem c4_missing_table_column_fails (df : DataFrame) (tbl : Table)
    (hop : UPDATE_COLUMN ∈ df.columns)
    (h : ∃ r ∈ deleteRows df, ∃ c ∈ tbl.columns, r.lookup c = none) :
    ∃ c2, incrementalDeleteRun df tbl = ([], some (Err.colKeyError c2)) := by
  obtain ⟨r, hr, c, hc, hlook⟩ := h
  have he : eqCond r c = Except.error (Err.colKeyError c) := by simp [eqCond, hlook]
  obtain ⟨e1, h1⟩ := mapExcept_error_of_mem hc he
  have hf : filterData r tbl = Except.error e1 := by simp [filterData, h1]
  obtain ⟨e2, h2⟩ :=
    @mapExcept_error_of_mem Row Pred (fun r => filterData r tbl) (deleteRows df) r e1 hr hf
  obtain ⟨r2, _, hfr2⟩ := mapExcept_error_inv h2
  obtain ⟨c2, hc2⟩ := filterData_error_inv hfr2
  subst hc2
  exact ⟨c2, by simp [incrementalDeleteRun, incrementalDelete, hop, h2]⟩

/-- C4, witness: against table `t2(id, name)`, the concrete snapshot whose
delete-marked row has no `name` column fails predicate construction with a
column KeyError and issues no statement. -/
theorem c4_witness :
    ∃ c2, incrementalDeleteRun dfMixed tblIdName = ([], some (Err.colKeyError c2)) :=
  c4_missing_table_column_fails dfMixed tblIdName (by decide)
    ⟨rowDel2, by decide, "name", by decide, rfl⟩

/-- C5, counterexample: two successful invocations over the same table, file
and database, one with an empty delete-set and one deleting a row, return
the very same result — `process_parquet` returns None and only logs the
file, table and database names — so the returned result cannot report the
counts of rows deleted and added, refuting the claim. -/
theorem c5_counterexample :
    processParquet dfMixed tblId "f.parquet" "db" = Except.ok ⟨"f.parquet", "t", "db"⟩ ∧
    processParquet dfMixed tblId "f.parquet" "db" =
      processParquet dfAddOnly tblId "f.parquet" "db" ∧
    (deleteRows dfMixed).length ≠ (deleteRows dfAddOnly).length :=
  ⟨rfl, rfl, by decide⟩

/-- C5, amended: on success, synchronize reports no row counts — its only
observable result is the log record carrying the parquet file name, the
table name and the database URL, independent of the row data. -/
theorem c5_success_reports_names_only (df : DataFrame) (tbl : Table)
    (p d : String) (r : LogRecord)
    (h : processParquet df tbl p d = Except.ok r) : r = ⟨p, tbl.name, d⟩ := by
  unfold processParquet at h
  rcases hrun : processParquetRun df tbl with ⟨tr, oe⟩
  rw [hrun] at h
  cases oe with
  | some e => cases h
  | none =>
    injection h with h2
    exact h2.symm

/-- C5, witness: the amended statement at a concrete successful invocation. -/
theorem c5_witness : (⟨"f.parquet", "t", "db"⟩ : LogRecord) = ⟨"f.parquet", tblId.name, "db"⟩ :=
  c5_success_reports_names_only dfAddOnly tblId "f.parquet" "db" ⟨"f.parquet", "t", "db"⟩ rfl

/-- C7: when the marker column is present, the add phase issues a single
bulk append of exactly the marker-true rows: one inserted row per add-set
row, in order, with the marker column removed from each inserted row, every
other column value unchanged and still addressed by name, and no row
inserted when the add-set is empty. -/
theorem c7_add_phase_inserts_addset (df : DataFrame) (tbl : Table)
    (hop : UPDATE_COLUMN ∈ df.columns) :
    ∃ ins, incrementalUpdateRun df tbl = ([Stmt.insertRows tbl.name ins], none) ∧
      ins.length = (addRows df).length ∧
      (∀ r2 ∈ ins, r2.lookup UPDATE_COLUMN = none) ∧
      (∀ i (h1 : i < ins.length) (h2 : i < (addRows df).length),
        ∀ c, c ≠ UPDATE_COLUMN →
          (ins.get ⟨i, h1⟩).lookup c = ((addRows df).get ⟨i, h2⟩).lookup c) ∧
      (addRows df = [] → ins = []) := by
  refine ⟨(addRows df).map (dropColumn UPDATE_COLUMN), ?_, ?_, ?_, ?_, ?_⟩
  · simp [incrementalUpdateRun, incrementalUpdate, hop]
  · simp
  · intro r2 hr2
    rw [List.mem_map] at hr2
    obtain ⟨r, _, hmap⟩ := hr2
    rw [← hmap]
    exact lookup_dropColumn_self UPDATE_COLUMN r
  · intro i h1 h2 c hc
    have hg : ((addRows df).map (dropColumn UPDATE_COLUMN)).get ⟨i, h1⟩ =
        dropColumn UPDATE_COLUMN ((addRows df).get ⟨i, h2⟩) := by
      simp [List.get_eq_getElem, List.getElem_map]
    rw [hg]
    exact lookup_dropColumn_ne UPDATE_COLUMN c hc _
  · intro h
    rw [h]
    rfl

/-- C7, witness: the add-phase property at the concrete two-row snapshot
against table `t(id)`. -/
theorem c7_witness :
    ∃ ins, incrementalUpdateRun dfMixed tblId = ([Stmt.insertRows tblId.name ins], none) ∧
      ins.length = (addRows dfMixed).length ∧
      (∀ r2 ∈ ins, r2.lookup UPDATE_COLUMN = none) ∧
      (∀ i (h1 : i < ins.length) (h2 : i < (addRows dfMixed).length),
        ∀ c, c ≠ UPDATE_COLUMN →
          (ins.get ⟨i, h1⟩).lookup c = ((addRows dfMixed).get ⟨i, h2⟩).lookup c) ∧
      (addRows dfMixed = [] → ins = []) :=
  c7_add_phase_inserts_addset dfMixed tblId (by decide)

/-- C9: whenever the delete phase succeeds — its delete statement executes
and is committed on its own connection — and the add phase then fails with a
database error, the final table state is exactly the post-delete state: the
deletions remain committed, with no rollback across the two phases. -/
theorem c9_deletes_remain_committed (df : DataFrame) (tbl : Table) (s1 : Stmt)
    (h : incrementalDelete df tbl = Except.ok s1) :
    processParquetExec df tbl true = (execStmt tbl s1, some Err.dbError) := by
  simp [processParquetExec, h]

/-- C9, witness: at the concrete two-row snapshot against table `t(id)`
holding `(id = 2)`, a failing add phase leaves the table with the
delete-marked row `(id = 2)` already removed. -/
theorem c9_witness :
    processParquetExec dfMixed tblId true =
      (execStmt tblId
        (Stmt.deleteStmt "t" (Pred.orP [Pred.andP [Pred.eqP "id" (Value.intV 2)]])),
       some Err.dbError) ∧
    execStmt tblId
        (Stmt.deleteStmt "t" (Pred.orP [Pred.andP [Pred.eqP "id" (Value.intV 2)]])) =
      ⟨"t", ["id"], []⟩ :=
  ⟨c9_deletes_remain_committed dfMixed tblId _ rfl, rfl⟩

end Parquetry
